import Mathlib

/-!
Shallow embedding of `src/LabExp3.py` (class `ColetorPRsGitHub`), a GitHub
pull-request harvesting pipeline.  Machine timestamps are modelled as `ℤ`
(seconds since an arbitrary epoch); Python floats that only carry exact
ratios (`review_hours`) are modelled as `ℚ`; remote calls and exceptions are
modelled by explicit outcome oracles; `None` becomes `Option`.
-/

namespace LabExp3

/-! ## Configuration constants (lines 12-21 of the source) -/

def HORAS_MINIMAS_REVISAO : ℤ := 1

def ARQUIVO_SAIDA_ANTIGO : String := "github_pr_reviews_antigo.csv"

def ARQUIVO_SAIDA_NOVO : String := "github_pr_reviews_novo.csv"

def MAX_REPOSITORIOS : ℕ := 200

def MIN_PRS : ℕ := 100

def DELAY_REQUISICAO : ℤ := 15

def MAX_TENTATIVAS : ℕ := 2

/-! ## MetricsRecord: one output row (`pr_data` built in `obter_dados_pr_seguro`) -/

/-- One persisted output row, with exactly the keys the source puts into
`pr_data` (lines 166-203). -/
structure PRRecord where
  repo : String
  pr_number : ℕ
  state : String
  title_length : ℕ
  description_length : ℕ
  description_code_blocks : ℕ
  created_at : Option ℤ
  closed_at : Option ℤ
  is_merged : Bool
  review_hours : Option ℚ
  comments : ℕ
  review_comments : ℕ
  unique_participants : ℕ
  additions : ℕ
  deletions : ℕ
  changed_files : ℕ
  changes_size : ℕ
  review_count : ℕ
  approval_count : ℕ
  request_changes_count : ℕ
deriving DecidableEq, Repr

/-- The composite dedup key: pandas `subset=['repo', 'pr_number']` (line 259). -/
def chave (r : PRRecord) : String × ℕ := (r.repo, r.pr_number)

/-- The key column of a data frame. -/
def chaves (df : List PRRecord) : List (String × ℕ) := df.map chave

/-! ## pandas `concat(...).drop_duplicates(subset=['repo','pr_number'])`

pandas `drop_duplicates` keeps, for every key, the FIRST row carrying it
(default `keep='first'`); rows keep their original order. -/

/-- Left-to-right scan of `drop_duplicates`: a row is kept iff its key has
not been seen earlier. -/
def dropDuplicatesAux (seen : List (String × ℕ)) : List PRRecord → List PRRecord
  | [] => []
  | r :: rs =>
    if chave r ∈ seen then dropDuplicatesAux seen rs
    else r :: dropDuplicatesAux (chave r :: seen) rs

/-- pandas `DataFrame.drop_duplicates(subset=['repo','pr_number'])`. -/
def drop_duplicates (df : List PRRecord) : List PRRecord := dropDuplicatesAux [] df

/-- `salvar_para_csv`, lines 247-264, restricted to its pure merge contract:
the existing file content (`none` when the file does not exist) is
concatenated with the new rows and de-duplicated by the composite key; when
the file does not exist the new rows are written as they are.  (The
timestamp-to-text normalisation of lines 253-255 does not move or drop rows
and is left out of the row model.) -/
def salvar_para_csv (existente : Option (List PRRecord)) (novos : List PRRecord) :
    List PRRecord :=
  match existente with
  | some df_existente => drop_duplicates (df_existente ++ novos)
  | none => novos

/-- The keys already recorded after scanning `xs` starting from `seen`. -/
def visto_apos (seen : List (String × ℕ)) : List PRRecord → List (String × ℕ)
  | [] => seen
  | r :: rs =>
    if chave r ∈ seen then visto_apos seen rs
    else visto_apos (chave r :: seen) rs

/-! ## Concrete rows used to decide the dedup-merge claims -/

/-- A row already present in the store, with key `("R", 5)`. -/
def linha_antiga : PRRecord :=
  { repo := "R", pr_number := 5, state := "closed", title_length := 10,
    description_length := 0, description_code_blocks := 0,
    created_at := some 0, closed_at := some 7200, is_merged := false,
    review_hours := some 2, comments := 1, review_comments := 1,
    unique_participants := 1, additions := 3, deletions := 1,
    changed_files := 1, changes_size := 4, review_count := 1,
    approval_count := 1, request_changes_count := 0 }

/-- A newly collected row with the same key `("R", 5)` but different field
values. -/
def linha_nova : PRRecord :=
  { linha_antiga with title_length := 99, comments := 7 }

/-- A row with a different key `("S", 5)`. -/
def linha_outra : PRRecord :=
  { linha_antiga with repo := "S" }

/-! ## The per-candidate persist loop of `executar` (lines 275-281) -/

/-- The body of the `for` loop of `executar`: after each candidate, the chunk
of freshly collected rows is appended to the run-wide accumulator
`novos_dados_pr`, and the WHOLE accumulator is passed to `salvar_para_csv`.
`store` is the content of the new output file (`none` = file absent). -/
def executar_loop (store : Option (List PRRecord)) (novos_dados_pr : List PRRecord) :
    List (List PRRecord) → Option (List PRRecord)
  | [] => store
  | chunk :: rest =>
    executar_loop (some (salvar_para_csv store (novos_dados_pr ++ chunk)))
      (novos_dados_pr ++ chunk) rest

/-- One whole pipeline run over a fixed remote state: the remote state
determines the per-candidate chunks of qualifying records, and the run
threads the output store through the persist loop. -/
def executar_run (store : Option (List PRRecord)) (chunks : List (List PRRecord)) :
    Option (List PRRecord) :=
  executar_loop store [] chunks

/-- Rows of a store that may be absent. -/
def linhas (store : Option (List PRRecord)) : List PRRecord := store.getD []

/-! ## Throttle: `verificar_limite_taxa` (lines 56-78) -/

/-- The `(remaining, resetAt)` pair reported by `get_rate_limit`. -/
structure RateInfo where
  remaining : ℤ
  reset : ℤ

/-- The mutable throttle fields of `ColetorPRsGitHub`. -/
structure ThrottleState where
  limite_requisicoes_restante : ℤ
  ultimo_tempo_requisicao : ℤ

/-- The instant the `get_rate_limit` remote call is issued: if less than
`DELAY_REQUISICAO` seconds elapsed since the last recorded call, the caller
first sleeps `DELAY_REQUISICAO - elapsed` (lines 61-62), waking exactly at
`ultimo_tempo_requisicao + DELAY_REQUISICAO`. -/
def callStart (st : ThrottleState) (agora : ℤ) : ℤ :=
  if agora - st.ultimo_tempo_requisicao < DELAY_REQUISICAO then
    st.ultimo_tempo_requisicao + DELAY_REQUISICAO
  else agora

/-- Observable outcome of one `verificar_limite_taxa` call. -/
structure VerificarResult where
  state : ThrottleState
  returnTime : ℤ
  blocked : Bool

/-- `verificar_limite_taxa` (lines 56-78): `agora` is the wall clock at entry
(line 58), `fim_chamada` the instant the `get_rate_limit` remote call
returns (`≥` its start), `info` its result (`none` = the call raised; the
`except` on line 75 then leaves the state untouched and `False` is
returned).  When the reported `remaining` is below 100, the caller sleeps
`(reset - agora) + 10` seconds before returning `True`; a negative sleep
argument makes Python `time.sleep` raise, which the same `except` swallows
(returning `False` with the state already updated). -/
def verificar_limite_taxa (st : ThrottleState) (agora fim_chamada : ℤ)
    (info : Option RateInfo) : VerificarResult :=
  match info with
  | none => ⟨st, fim_chamada, false⟩
  | some i =>
    let st2 : ThrottleState := ⟨i.remaining, fim_chamada⟩
    if i.remaining < 100 then
      let tempo_espera := i.reset - agora + 10
      if tempo_espera < 0 then ⟨st2, fim_chamada, false⟩
      else ⟨st2, fim_chamada + tempo_espera, true⟩
    else ⟨st2, fim_chamada, false⟩

/-! ## Review classifier: `eh_pr_revisado_por_humano` (lines 141-158) -/

/-- The scalar snapshot of one pull request, as consumed by the classifier
and by `obter_dados_pr_seguro`; `reviews_totalCount` is the
`pr.get_reviews().totalCount` observed by the classifier (line 148). -/
structure PRSnapshot where
  number : ℕ
  state : String
  title : String
  body : Option String
  created_at : Option ℤ
  closed_at : Option ℤ
  merged_at : Option ℤ
  merged : Bool
  additions : ℕ
  deletions : ℕ
  changed_files : ℕ
  reviews_totalCount : ℕ
deriving DecidableEq, Repr

/-- Python `str.lower()` restricted to ASCII, written over the underlying
character list so that it evaluates by kernel reduction. -/
def minusculas (s : String) : String := ⟨s.data.map Char.toLower⟩

/-- Python `pr.closed_at or pr.merged_at` (lines 152 and 174). -/
def fechamento (pr : PRSnapshot) : Option ℤ :=
  match pr.closed_at with
  | some t => some t
  | none => pr.merged_at

/-- `eh_pr_revisado_por_humano` (lines 141-158).  A missing `created_at`
makes the Python subtraction raise, which the surrounding `except` turns
into `False` (fail closed); the duration comparison is strict
(`> timedelta(hours=HORAS_MINIMAS_REVISAO)`), with timestamps in seconds. -/
def eh_pr_revisado_por_humano (pr : PRSnapshot) : Bool :=
  if ¬(minusculas pr.state = "closed" ∨ minusculas pr.state = "merged") then false
  else if pr.reviews_totalCount < 1 then false
  else
    match fechamento pr, pr.created_at with
    | some f, some c => decide (f - c > 3600 * HORAS_MINIMAS_REVISAO)
    | _, _ => false

/-- `state=merged`, one review, `closedAt = createdAt + 2h`. -/
def pr_merged_2h : PRSnapshot :=
  { number := 1, state := "merged", title := "t", body := none,
    created_at := some 0, closed_at := some 7200, merged_at := none,
    merged := true, additions := 0, deletions := 0, changed_files := 0,
    reviews_totalCount := 1 }

/-- As `pr_merged_2h`, but closed after half an hour. -/
def pr_meia_hora : PRSnapshot := { pr_merged_2h with closed_at := some 1800 }

/-- As `pr_merged_2h`, but still open. -/
def pr_aberto : PRSnapshot := { pr_merged_2h with state := "open" }

/-- As `pr_merged_2h`, but with no review. -/
def pr_sem_revisao : PRSnapshot := { pr_merged_2h with reviews_totalCount := 0 }

/-! ## Detail fetcher: `obter_dados_pr_seguro` (lines 160-215) -/

/-- One issue comment; `user` is the commenter login (`none` when the API
returns no user object). -/
structure Comentario where
  user : Option String
deriving DecidableEq, Repr

/-- One review; `state` is e.g. `"APPROVED"` or `"CHANGES_REQUESTED"`. -/
structure Revisao where
  user : Option String
  state : Option String
deriving DecidableEq, Repr

/-- Python `s.count('```') // 2` (line 172): non-overlapping occurrence
count, halved. -/
def contar_blocos_codigo (s : String) : ℕ := ((s.splitOn "```").length - 1) / 2

/-- Assembly of the `pr_data` dictionary (lines 166-203) from the snapshot
and the comment and review lists in scope. -/
def montar_dados_pr (nome_repo : String) (pr : PRSnapshot)
    (comments : List Comentario) (reviews : List Revisao) : PRRecord :=
  let closed := fechamento pr
  let participantes :=
    ((comments.filterMap Comentario.user) ++ (reviews.filterMap Revisao.user)).dedup
  { repo := nome_repo
    pr_number := pr.number
    state := minusculas pr.state
    title_length := pr.title.length
    description_length := match pr.body with | some b => b.length | none => 0
    description_code_blocks :=
      match pr.body with | some b => contar_blocos_codigo b | none => 0
    created_at := pr.created_at
    closed_at := closed
    is_merged := pr.merged
    review_hours :=
      match closed, pr.created_at with
      | some f, some c => some ((f - c : ℚ) / 3600)
      | _, _ => none
    comments := comments.length
    review_comments := reviews.length
    unique_participants := participantes.length
    additions := pr.additions
    deletions := pr.deletions
    changed_files := pr.changed_files
    changes_size := pr.additions + pr.deletions
    review_count := reviews.length
    approval_count := (reviews.filter (fun r => r.state == some "APPROVED")).length
    request_changes_count :=
      (reviews.filter (fun r => r.state == some "CHANGES_REQUESTED")).length }

/-- What attempt number `t` of the `try` block of `obter_dados_pr_seguro`
runs into: a `RateLimitExceededException`, some other exception, or
completion — carrying the comment and review lists that a first-attempt
fetch would return (lines 184 and 187 skip those fetches and use `[]`
whenever `tentativa ≠ 1`). -/
inductive ResultadoTentativa where
  | estouraLimite
  | outraFalha
  | completa (comments : List Comentario) (reviews : List Revisao)

/-- `obter_dados_pr_seguro` (lines 160-215).  Besides the produced record
(`none` = the Python `return None`), the second component counts the calls
to `tratar_limite_taxa_atingido` (the hard-cooldown path, line 209).  Every
exception is handled inside the function: it never raises to its caller. -/
def obter_dados_pr_seguro (nome_repo : String) (pr : PRSnapshot)
    (tentativas : ℕ → ResultadoTentativa) (tentativa : ℕ) :
    Option PRRecord × ℕ :=
  if eh_pr_revisado_por_humano pr = false then (none, 0)
  else
    match tentativas tentativa with
    | .completa cs rs =>
      (some (montar_dados_pr nome_repo pr (if tentativa = 1 then cs else [])
        (if tentativa = 1 then rs else [])), 0)
    | .outraFalha => (none, 0)
    | .estouraLimite =>
      if h : tentativa ≤ MAX_TENTATIVAS then
        let r := obter_dados_pr_seguro nome_repo pr tentativas (tentativa + 1)
        (r.1, r.2 + 1)
      else (none, 0)
termination_by MAX_TENTATIVAS + 1 - tentativa
decreasing_by omega

/-! ## Per-candidate collection: `coletar_prs_repositorio` (lines 217-245) -/

/-- Outcome of one full listing attempt: the `repo.get_pulls` listing plus
the worker fan-out either completes with the collected records, raises
`RateLimitExceededException`, or raises some other exception (the `except`
on line 241 then logs and the — still empty — accumulated list is
returned). -/
inductive ResultadoListagem where
  | completa (dados : List PRRecord)
  | estouraLimite
  | outraFalha

/-- `coletar_prs_repositorio` (lines 217-245).  On
`RateLimitExceededException` the source re-enters ITSELF with no attempt
counter (line 240), so the number of re-entries is unbounded; `fuel` bounds
the modelled recursion depth, and `none` marks fuel exhaustion (the source
would still be recursing).  On a normal return, the second component counts
how many times the listing was re-entered. -/
def coletar_prs_repositorio (listagens : ℕ → ResultadoListagem) :
    ℕ → ℕ → Option (List PRRecord × ℕ)
  | _, 0 => none
  | chamada, fuel + 1 =>
    match listagens chamada with
    | .completa dados => some (dados, 0)
    | .outraFalha => some ([], 0)
    | .estouraLimite =>
      (coletar_prs_repositorio listagens (chamada + 1) fuel).map
        (fun p => (p.1, p.2 + 1))

/-! ## Candidate discoverer: `obter_repositorios_top` (lines 88-139) -/

/-- What `repo.get_pulls(state='all').totalCount` (line 116) yields for one
search result. -/
inductive ContagemPRs where
  | contagem (n : ℕ)
  | estouraLimite
  | outraFalha
deriving DecidableEq, Repr

/-- One result of `search_repositories`. -/
structure RepositorioBusca where
  full_name : String
  pulls : ContagemPRs
deriving DecidableEq, Repr

/-- Outcome of issuing the search call and iterating its pages. -/
inductive ResultadoBusca where
  | ok
  | estouraLimite
  | outraFalha

/-- Accumulator of the discovery loop: the admitted repositories and the
`limite_taxa_atingido` flag. -/
structure EstadoBusca where
  repositorios : List RepositorioBusca
  limite_taxa_atingido : Bool

/-- The inner `for repo in busca` loop (lines 105-128) of one attempt:
`verificacoes idx` says whether the `verificar_limite_taxa()` on line 113
returned `True` at the `idx`-th iterated result.  Stops by `break` once
`repos_needed` rows are admitted; skips ids already in `processados`; takes
the early `return` of line 114 when the rate check fires or the hard-limit
flag is set; admits a result only when its PR count is `≥ MIN_PRS`; a
per-repo `RateLimitExceededException` sets the hard-limit flag and
continues (making the next non-skipped iteration return); any other
per-repo exception just skips the repo. -/
def processar_busca (processados : List String) (repos_needed : ℕ)
    (verificacoes : ℕ → Bool) :
    List RepositorioBusca → ℕ → EstadoBusca → EstadoBusca
  | [], _, st => st
  | repo :: rest, idx, st =>
    if st.repositorios.length ≥ repos_needed then st
    else if repo.full_name ∈ processados then
      processar_busca processados repos_needed verificacoes rest (idx + 1) st
    else if verificacoes idx || st.limite_taxa_atingido then st
    else
      match repo.pulls with
      | .contagem n =>
        if n ≥ MIN_PRS then
          processar_busca processados repos_needed verificacoes rest (idx + 1)
            ⟨st.repositorios ++ [repo], st.limite_taxa_atingido⟩
        else processar_busca processados repos_needed verificacoes rest (idx + 1) st
      | .estouraLimite =>
        processar_busca processados repos_needed verificacoes rest (idx + 1)
          ⟨st.repositorios, true⟩
      | .outraFalha =>
        processar_busca processados repos_needed verificacoes rest (idx + 1) st

/-- The outer `while` of `obter_repositorios_top` (lines 94-137): runs while
fewer than `repos_needed` repositories are admitted and fewer than
`MAX_TENTATIVAS` failed search attempts happened.  `verificacoes_alto iter`
is the line-96 `verificar_limite_taxa()` result of `while`-iteration `iter`
(on `True` the iteration restarts by `continue`); `buscas iter` is the
outcome of that iteration's search.  When the search succeeds, the inner
loop runs and — whether it completes, `break`s out, or takes the early
`return` — the admitted list is returned.  A search-level
`RateLimitExceededException` sets the hard-limit flag and counts an
attempt; any other search failure just counts an attempt.  `fuel` bounds
the modelled `while`; `none` = still looping. -/
def obter_repositorios_top_loop (processados : List String) (repos_needed : ℕ)
    (resultados : List RepositorioBusca) (verificacoes_alto : ℕ → Bool)
    (buscas : ℕ → ResultadoBusca) (verificacoes : ℕ → ℕ → Bool) :
    ℕ → ℕ → EstadoBusca → ℕ → Option (List RepositorioBusca)
  | _, _, _, 0 => none
  | iter, tent, st, fuel + 1 =>
    if st.repositorios.length < repos_needed ∧ tent < MAX_TENTATIVAS then
      if verificacoes_alto iter then
        obter_repositorios_top_loop processados repos_needed resultados
          verificacoes_alto buscas verificacoes (iter + 1) tent st fuel
      else
        match buscas iter with
        | .ok =>
          some (processar_busca processados repos_needed (verificacoes iter)
            resultados 0 st).repositorios
        | .estouraLimite =>
          obter_repositorios_top_loop processados repos_needed resultados
            verificacoes_alto buscas verificacoes (iter + 1) (tent + 1)
            ⟨st.repositorios, true⟩ fuel
        | .outraFalha =>
          obter_repositorios_top_loop processados repos_needed resultados
            verificacoes_alto buscas verificacoes (iter + 1) (tent + 1) st fuel
    else some st.repositorios

/-- `obter_repositorios_top` (lines 88-139): `repos_needed` is
`MAX_REPOSITORIOS - len(self.repositorios_processados)` (line 92; a
non-positive Python value and the truncated `ℕ` subtraction both make the
`while` guard fail immediately, returning `[]`). -/
def obter_repositorios_top (processados : List String)
    (resultados : List RepositorioBusca) (verificacoes_alto : ℕ → Bool)
    (buscas : ℕ → ResultadoBusca) (verificacoes : ℕ → ℕ → Bool) (fuel : ℕ) :
    Option (List RepositorioBusca) :=
  obter_repositorios_top_loop processados (MAX_REPOSITORIOS - processados.length)
    resultados verificacoes_alto buscas verificacoes 0 0 ⟨[], false⟩ fuel

/-! ## Checkpoint files and the save method (lines 45-54 and 247-267) -/

/-- The on-disk state: the content at each path (`none` = missing file). -/
def SistemaArquivos : Type := String → Option (List PRRecord)

/-- `carregar_repositorios_processados` (lines 45-54): reads ONLY the old
checkpoint file `ARQUIVO_SAIDA_ANTIGO` and collects the distinct values of
its `repo` column; a missing (or unreadable) file leaves the set empty. -/
def carregar_repositorios_processados (fs : SistemaArquivos) : List String :=
  match fs ARQUIVO_SAIDA_ANTIGO with
  | some df => (df.map PRRecord.repo).dedup
  | none => []

/-- Whether the rewrite of the output file (line 263) succeeds or raises a
disk/write error. -/
inductive ResultadoEscrita where
  | sucesso
  | falhaDisco

/-- The in-memory collector state that persists across saves. -/
structure EstadoColetor where
  repositorios_processados : List String

/-- The `salvar_para_csv` method with its effects (lines 247-267): it reads
and rewrites only `ARQUIVO_SAIDA_NOVO`; any exception of the `try` block is
caught on line 266 and reported by the synchronous `print` on line 267, so
the method always returns normally.  Result: the new file system, the
(unchanged) collector state, and the messages printed by this call. -/
def salvar_para_csv_metodo (fs : SistemaArquivos) (st : EstadoColetor)
    (novos_dados : List PRRecord) (escrita : ResultadoEscrita) :
    SistemaArquivos × EstadoColetor × List String :=
  let df_completo := salvar_para_csv (fs ARQUIVO_SAIDA_NOVO) novos_dados
  match escrita with
  | .sucesso =>
    (fun p => if p = ARQUIVO_SAIDA_NOVO then some df_completo else fs p, st,
      ["Dados salvos em " ++ ARQUIVO_SAIDA_NOVO])
  | .falhaDisco => (fs, st, ["Erro ao salvar CSV"])

/-! ### Lemmas about the keep-first dedup scan -/

theorem dropDuplicatesAux_nil (seen : List (String × ℕ)) :
    dropDuplicatesAux seen [] = [] := rfl

theorem chaves_cons (r : PRRecord) (rs : List PRRecord) :
    chaves (r :: rs) = chave r :: chaves rs := rfl

theorem chaves_append (a b : List PRRecord) :
    chaves (a ++ b) = chaves a ++ chaves b := List.map_append chave a b

theorem mem_visto_apos (k : String × ℕ) :
    ∀ (xs : List PRRecord) (seen : List (String × ℕ)),
      k ∈ visto_apos seen xs ↔ k ∈ seen ∨ k ∈ chaves xs := by
  intro xs
  induction xs with
  | nil => intro seen; simp [visto_apos, chaves]
  | cons r rs ih =>
    intro seen
    by_cases h : chave r ∈ seen
    · rw [show visto_apos seen (r :: rs) = visto_apos seen rs by
        simp [visto_apos, h], ih, chaves_cons, List.mem_cons]
      constructor
      · rintro (hs | hx)
        · exact Or.inl hs
        · exact Or.inr (Or.inr hx)
      · rintro (hs | rfl | hx)
        · exact Or.inl hs
        · exact Or.inl h
        · exact Or.inr hx
    · rw [show visto_apos seen (r :: rs) = visto_apos (chave r :: seen) rs by
        simp [visto_apos, h], ih, chaves_cons, List.mem_cons, List.mem_cons]
      tauto

theorem dropDuplicatesAux_append (xs ys : List PRRecord) :
    ∀ seen, dropDuplicatesAux seen (xs ++ ys) =
      dropDuplicatesAux seen xs ++ dropDuplicatesAux (visto_apos seen xs) ys := by
  induction xs with
  | nil => intro seen; simp [dropDuplicatesAux, visto_apos]
  | cons r rs ih =>
    intro seen
    by_cases h : chave r ∈ seen
    · simp [dropDuplicatesAux, visto_apos, h, ih]
    · simp [dropDuplicatesAux, visto_apos, h, ih]

/-- Scanning rows whose keys have all been seen drops everything. -/
theorem dropDuplicatesAux_eq_nil (ys : List PRRecord) :
    ∀ seen, (∀ r ∈ ys, chave r ∈ seen) → dropDuplicatesAux seen ys = [] := by
  induction ys with
  | nil => intro seen _; rfl
  | cons r rs ih =>
    intro seen h
    have hr : chave r ∈ seen := h r (List.mem_cons_self r rs)
    simp only [dropDuplicatesAux, hr, if_pos]
    exact ih seen fun x hx => h x (List.mem_cons_of_mem _ hx)

/-- Scanning rows with pairwise distinct keys, none seen before, keeps them all. -/
theorem dropDuplicatesAux_eq_self (ys : List PRRecord) :
    ∀ seen, (chaves ys).Nodup → (∀ r ∈ ys, chave r ∉ seen) →
      dropDuplicatesAux seen ys = ys := by
  induction ys with
  | nil => intro seen _ _; rfl
  | cons r rs ih =>
    intro seen hnodup hout
    rw [chaves_cons, List.nodup_cons] at hnodup
    have hr : chave r ∉ seen := hout r (List.mem_cons_self r rs)
    simp only [dropDuplicatesAux, hr, if_neg, not_false_iff, List.cons.injEq, true_and]
    refine ih (chave r :: seen) hnodup.2 ?_
    intro x hx
    intro hmem
    rcases List.mem_cons.mp hmem with hk | hk
    · exact hnodup.1 (hk ▸ List.mem_map_of_mem chave hx)
    · exact hout x (List.mem_cons_of_mem _ hx) hk

/-- The dedup scan always produces pairwise distinct keys, none of which was
already seen. -/
theorem dropDuplicatesAux_nodup (xs : List PRRecord) :
    ∀ seen, (∀ r ∈ dropDuplicatesAux seen xs, chave r ∉ seen) ∧
      (chaves (dropDuplicatesAux seen xs)).Nodup := by
  induction xs with
  | nil =>
    intro seen
    refine ⟨?_, ?_⟩
    · intro r h; cases h
    · simp [chaves, dropDuplicatesAux]
  | cons r rs ih =>
    intro seen
    by_cases h : chave r ∈ seen
    · simpa [dropDuplicatesAux, h] using ih seen
    · obtain ⟨ih1, ih2⟩ := ih (chave r :: seen)
      simp only [dropDuplicatesAux, h, if_neg, not_false_iff]
      constructor
      · intro x hx
        rcases List.mem_cons.mp hx with rfl | hx'
        · exact h
        · exact fun hmem => ih1 x hx' (List.mem_cons_of_mem _ hmem)
      · refine List.nodup_cons.mpr ⟨?_, ih2⟩
        intro hmem
        rcases List.mem_map.mp (by simpa [chaves] using hmem) with ⟨x, hx, hk⟩
        exact ih1 x hx (hk ▸ List.mem_cons_self _ _)

/-- `drop_duplicates` output always has pairwise distinct composite keys. -/
theorem chaves_drop_duplicates_nodup (df : List PRRecord) :
    (chaves (drop_duplicates df)).Nodup :=
  (dropDuplicatesAux_nodup df []).2

/-- First write wins: merging rows whose keys all already occur in a store
with pairwise-distinct keys returns the store unchanged. -/
theorem drop_duplicates_append_subset (s novos : List PRRecord)
    (hnodup : (chaves s).Nodup) (hsub : ∀ r ∈ novos, chave r ∈ chaves s) :
    drop_duplicates (s ++ novos) = s := by
  unfold drop_duplicates
  rw [dropDuplicatesAux_append]
  rw [dropDuplicatesAux_eq_self s [] hnodup (by intro r _ h; cases h)]
  rw [dropDuplicatesAux_eq_nil novos _ ?_, List.append_nil]
  intro r hr
  rw [mem_visto_apos]
  exact Or.inr (hsub r hr)

/-- Re-merging a duplicate-free prefix: `drop_duplicates (xs ++ (xs ++ ys))`
collapses the repeated block, leaving `xs ++ ys`. -/
theorem drop_duplicates_append_self (xs ys : List PRRecord)
    (hnodup : (chaves (xs ++ ys)).Nodup) :
    drop_duplicates (xs ++ (xs ++ ys)) = xs ++ ys := by
  rw [chaves_append, List.nodup_append] at hnodup
  have hx : (chaves xs).Nodup := hnodup.1
  have hy : (chaves ys).Nodup := hnodup.2.1
  have hdisj : ∀ r ∈ ys, chave r ∉ chaves xs := by
    intro r hr hmem
    exact hnodup.2.2 hmem (List.mem_map_of_mem chave hr)
  unfold drop_duplicates
  rw [dropDuplicatesAux_append]
  rw [dropDuplicatesAux_eq_self xs [] hx (by intro r _ h; cases h)]
  rw [dropDuplicatesAux_append]
  rw [dropDuplicatesAux_eq_nil xs _ ?_]
  · rw [List.nil_append]
    rw [dropDuplicatesAux_eq_self ys _ hy ?_]
    intro r hr hmem
    rw [mem_visto_apos] at hmem
    rcases hmem with hmem | hmem
    · rw [mem_visto_apos] at hmem
      rcases hmem with hmem | hmem
      · cases hmem
      · exact hdisj r hr hmem
    · exact hdisj r hr (by simpa [chaves] using hmem)
  · intro r hr
    rw [mem_visto_apos]
    exact Or.inr (List.mem_map_of_mem chave hr)

/-! ### The persist loop under distinct keys -/

/-- Replaying the cumulative persist loop over a store that equals the
accumulator extends the store chunk by chunk. -/
theorem executar_loop_cumulativo (cs : List (List PRRecord)) :
    ∀ acc, (chaves (acc ++ cs.flatten)).Nodup →
      executar_loop (some acc) acc cs = some (acc ++ cs.flatten) := by
  induction cs with
  | nil =>
    intro acc _
    show some acc = some (acc ++ [].flatten)
    simp
  | cons c cs ih =>
    intro acc hnodup
    rw [List.flatten_cons, ← List.append_assoc] at hnodup
    have hsl : List.Sublist (acc ++ c) (acc ++ c ++ cs.flatten) := List.sublist_append_left _ _
    have hsub : (chaves (acc ++ c)).Nodup := hnodup.sublist (hsl.map chave)
    show executar_loop (some (salvar_para_csv (some acc) (acc ++ c))) (acc ++ c) cs =
      some (acc ++ (c :: cs).flatten)
    have hm : salvar_para_csv (some acc) (acc ++ c) = acc ++ c :=
      drop_duplicates_append_self acc c hsub
    rw [hm, ih (acc ++ c) hnodup, List.flatten_cons, List.append_assoc]

/-- Persisting only rows whose keys are already in a duplicate-free store
leaves the store fixed across the whole loop. -/
theorem executar_loop_absorvido (L : List PRRecord) (cs : List (List PRRecord)) :
    ∀ acc, (chaves L).Nodup → (∀ r ∈ acc ++ cs.flatten, chave r ∈ chaves L) →
      executar_loop (some L) acc cs = some L := by
  induction cs with
  | nil => intro acc _ _; rfl
  | cons c cs ih =>
    intro acc hnodup hsub
    show executar_loop (some (salvar_para_csv (some L) (acc ++ c))) (acc ++ c) cs = some L
    have hm : salvar_para_csv (some L) (acc ++ c) = L := by
      apply drop_duplicates_append_subset L (acc ++ c) hnodup
      intro r hr
      apply hsub
      rw [List.flatten_cons]
      rcases List.mem_append.mp hr with h | h
      · exact List.mem_append.mpr (Or.inl h)
      · exact List.mem_append.mpr (Or.inr (List.mem_append.mpr (Or.inl h)))
    rw [hm]
    apply ih (acc ++ c) hnodup
    intro r hr
    apply hsub
    rw [List.flatten_cons]
    rcases List.mem_append.mp hr with h | h
    · rcases List.mem_append.mp h with h1 | h1
      · exact List.mem_append.mpr (Or.inl h1)
      · exact List.mem_append.mpr (Or.inr (List.mem_append.mpr (Or.inl h1)))
    · exact List.mem_append.mpr (Or.inr (List.mem_append.mpr (Or.inr h)))

/-! ## C1: the dedup-merge contract of `salvar_para_csv` -/

/-- C1 (counterexample): persisting the new row `linha_nova` — key
`("R", 5)`, `title_length = 99` — into a store already holding
`linha_antiga` (same key, `title_length = 10`, other field values) keeps the
OLD row's values, not the new ones: `pd.concat([df_existente, df_novo])`
puts the existing rows first and `drop_duplicates` keeps the FIRST row per
key, so the merge is first-write-wins, refuting the claimed
last-write-wins replacement. -/
theorem c1_contraexemplo_ultima_escrita :
    salvar_para_csv (some [linha_antiga]) [linha_nova] = [linha_antiga] ∧
      linha_nova ≠ linha_antiga ∧ chave linha_nova = chave linha_antiga := by
  refine ⟨rfl, by decide, rfl⟩

/-- C1 (amended): for every persist of a new record whose dedup key
`(repo, pr_number)` already occurs in a store with pairwise-distinct keys,
the store is rewritten UNCHANGED — the existing row's field values win
(first write wins, the row is not duplicated), the total number of rows is
unchanged — and after every persist into an existing store the composite
key is unique. -/
theorem c1_dedup_primeira_escrita_vence (s : List PRRecord) (n : PRRecord)
    (hnodup : (chaves s).Nodup) (hmem : chave n ∈ chaves s) :
    salvar_para_csv (some s) [n] = s ∧
      (salvar_para_csv (some s) [n]).length = s.length ∧
      ∀ t novos, (chaves (salvar_para_csv (some t) novos)).Nodup := by
  have h1 : salvar_para_csv (some s) [n] = s := by
    apply drop_duplicates_append_subset s [n] hnodup
    intro r hr
    rcases List.mem_cons.mp hr with rfl | h
    · exact hmem
    · cases h
  exact ⟨h1, by rw [h1], fun t novos => chaves_drop_duplicates_nodup _⟩

/-- Witness for `c1_dedup_primeira_escrita_vence` at the concrete
store `[linha_antiga]` and new row `linha_nova`. -/
theorem c1_dedup_primeira_escrita_vence_witness :
    salvar_para_csv (some [linha_antiga]) [linha_nova] = [linha_antiga] ∧
      (salvar_para_csv (some [linha_antiga]) [linha_nova]).length =
        [linha_antiga].length ∧
      ∀ t novos, (chaves (salvar_para_csv (some t) novos)).Nodup :=
  c1_dedup_primeira_escrita_vence [linha_antiga] linha_nova (by decide) (by decide)

/-! ## C2: idempotent resume -/

/-- C2: for a fixed remote state — fixed per-candidate chunks of qualifying
records, with pairwise-distinct dedup keys — running the whole pipeline
twice, the second run starting on the store the first run left behind (a
fresh store at the start), yields a final persisted store whose rows are
exactly the run's qualifying items (hence the union of both runs' equal
record sets) with no duplicate `(repo, pr_number)` key. -/
theorem c2_retomada_idempotente (chunks : List (List PRRecord))
    (hnodup : (chaves chunks.flatten).Nodup) :
    linhas (executar_run (executar_run none chunks) chunks) = chunks.flatten ∧
      (chaves (linhas (executar_run (executar_run none chunks) chunks))).Nodup := by
  cases chunks with
  | nil => exact ⟨rfl, List.nodup_nil⟩
  | cons c cs =>
    have h1 : executar_run none (c :: cs) = some (c ++ cs.flatten) := by
      show executar_loop (some (salvar_para_csv none ([] ++ c))) ([] ++ c) cs =
        some (c ++ cs.flatten)
      rw [List.nil_append]
      exact executar_loop_cumulativo cs c hnodup
    have h2 : executar_run (some (c ++ cs.flatten)) (c :: cs) = some (c ++ cs.flatten) := by
      apply executar_loop_absorvido (c ++ cs.flatten) (c :: cs) [] hnodup
      intro r hr
      rw [List.nil_append, List.flatten_cons] at hr
      exact List.mem_map_of_mem chave hr
    constructor
    · rw [h1, h2]
      rfl
    · rw [h1, h2]
      exact hnodup

/-- Witness for `c2_retomada_idempotente` at two concrete one-row chunks
with distinct keys. -/
theorem c2_retomada_idempotente_witness :
    linhas (executar_run (executar_run none [[linha_antiga], [linha_outra]])
        [[linha_antiga], [linha_outra]]) = [[linha_antiga], [linha_outra]].flatten ∧
      (chaves (linhas (executar_run (executar_run none [[linha_antiga], [linha_outra]])
        [[linha_antiga], [linha_outra]]))).Nodup :=
  c2_retomada_idempotente [[linha_antiga], [linha_outra]] (by decide)

/-! ## C3: throttle spacing and low-water blocking -/

/-- The rate-check call is never issued less than `DELAY_REQUISICAO` seconds
after the last recorded call. -/
theorem callStart_ge_ultimo (s : ThrottleState) (a : ℤ) :
    s.ultimo_tempo_requisicao + DELAY_REQUISICAO ≤ callStart s a := by
  unfold callStart
  split
  · exact le_refl _
  · omega

/-- The rate-check call is never issued before the entry instant. -/
theorem callStart_ge_agora (s : ThrottleState) (a : ℤ) : a ≤ callStart s a := by
  unfold callStart
  split
  · omega
  · exact le_refl _

/-- Whatever branch runs, a `verificar_limite_taxa` call whose
`get_rate_limit` succeeds records `fim_chamada` as the new last-call time
and the reported `remaining`. -/
theorem verificar_state_eq (st : ThrottleState) (agora fim : ℤ) (i : RateInfo) :
    (verificar_limite_taxa st agora fim (some i)).state = ⟨i.remaining, fim⟩ := by
  by_cases h : i.remaining < 100
  · by_cases h2 : i.reset - agora + 10 < 0
    · simp [verificar_limite_taxa, h, h2]
    · simp [verificar_limite_taxa, h, h2]
  · simp [verificar_limite_taxa, h]

/-- C3 (counterexample): the claimed minimum spacing between the starts of
successive remote calls does NOT hold for every sequence of `acquire()`
calls.  When `get_rate_limit` itself raises, the `except` of lines 75-78
runs before line 67, so `ultimo_tempo_requisicao` keeps its stale value.
Concrete trace: the last recorded call is at time 0; an acquire entered at
time 20 issues its remote read at 20 (no sleep, 20 ≥ 15), the read raises
and the call returns at 20 with the state unchanged; the next acquire
entered at time 22 issues its remote read at 22 — only 2 seconds, less than
`DELAY_REQUISICAO = 15`, after the previous remote call's start. -/
theorem c3_contraexemplo_espacamento :
    callStart ⟨5000, 0⟩ 20 = 20 ∧
    verificar_limite_taxa ⟨5000, 0⟩ 20 20 none =
      ⟨⟨5000, 0⟩, 20, false⟩ ∧
    callStart (verificar_limite_taxa ⟨5000, 0⟩ 20 20 none).state 22 = 22 ∧
    22 - 20 < DELAY_REQUISICAO :=
  ⟨by decide, rfl, by decide, by decide⟩

/-- C3 (amended): throttle contract, restricted as forced by
`c3_contraexemplo_espacamento` to acquires whose rate-status read succeeds.
For consecutive `verificar_limite_taxa` calls (`fim1` being the completion
instant of the first call's remote `get_rate_limit`, never earlier than its
start), when that read SUCCEEDS, (a) the start of the next call's remote
read lies at least `DELAY_REQUISICAO` after the start of this one — the
spacing is enforced by the `time.sleep(DELAY_REQUISICAO - elapsed)` of
lines 61-62 together with the timestamp update of line 67; a failed read
leaves the timestamp stale and forfeits the guarantee for the next gap —
and (b) whenever the observed `remaining` is below the low-water mark 100,
the observing `acquire()` does not return before `reset + 10`; every later
call then returns later still. -/
theorem c3_contrato_throttle (st : ThrottleState) (a1 fim1 : ℤ) (i1 : RateInfo)
    (a2 : ℤ) (hfim : callStart st a1 ≤ fim1) :
    callStart st a1 + DELAY_REQUISICAO ≤
      callStart (verificar_limite_taxa st a1 fim1 (some i1)).state a2 ∧
    (i1.remaining < 100 →
      i1.reset + 10 ≤ (verificar_limite_taxa st a1 fim1 (some i1)).returnTime) := by
  constructor
  · rw [verificar_state_eq]
    have h1 := callStart_ge_ultimo (⟨i1.remaining, fim1⟩ : ThrottleState) a2
    have h2 : (⟨i1.remaining, fim1⟩ : ThrottleState).ultimo_tempo_requisicao = fim1 := rfl
    rw [h2] at h1
    omega
  · intro hrem
    have ha := callStart_ge_agora st a1
    by_cases hesp : i1.reset - a1 + 10 < 0
    · have hret : (verificar_limite_taxa st a1 fim1 (some i1)).returnTime = fim1 := by
        simp [verificar_limite_taxa, hrem, hesp]
      rw [hret]
      omega
    · have hret : (verificar_limite_taxa st a1 fim1 (some i1)).returnTime =
          fim1 + (i1.reset - a1 + 10) := by
        simp [verificar_limite_taxa, hrem, hesp]
      rw [hret]
      omega

/-- Witness for `c3_contrato_throttle`: last call recorded at 0, entry at 0
(so the spacing sleep wakes at 15), remote read done at 15 reporting
`remaining = 50`, `reset = 100`. -/
theorem c3_contrato_throttle_witness :
    callStart ⟨5000, 0⟩ 0 + DELAY_REQUISICAO ≤
      callStart (verificar_limite_taxa ⟨5000, 0⟩ 0 15 (some ⟨50, 100⟩)).state 20 ∧
    ((⟨50, 100⟩ : RateInfo).remaining < 100 →
      (⟨50, 100⟩ : RateInfo).reset + 10 ≤
        (verificar_limite_taxa ⟨5000, 0⟩ 0 15 (some ⟨50, 100⟩)).returnTime) :=
  c3_contrato_throttle ⟨5000, 0⟩ 0 15 ⟨50, 100⟩ 20 (by decide)

/-! ## C4: classifier correctness -/

/-- C4: `eh_pr_revisado_por_humano` returns `true` exactly when the state is
`closed` or `merged` (case-insensitively), at least one review exists, the
close/merge timestamp is present, and the close-to-create duration strictly
exceeds `HORAS_MINIMAS_REVISAO` hours; and the four concrete spec instances
classify as stated (`merged`/1 review/2h → reviewed; half an hour, open
state, or zero reviews → not reviewed). -/
theorem c4_classificador_correto :
    (∀ pr : PRSnapshot, eh_pr_revisado_por_humano pr = true ↔
      ((minusculas pr.state = "closed" ∨ minusculas pr.state = "merged") ∧
        1 ≤ pr.reviews_totalCount ∧
        ∃ f c, fechamento pr = some f ∧ pr.created_at = some c ∧
          3600 * HORAS_MINIMAS_REVISAO < f - c)) ∧
    eh_pr_revisado_por_humano pr_merged_2h = true ∧
    eh_pr_revisado_por_humano pr_meia_hora = false ∧
    eh_pr_revisado_por_humano pr_aberto = false ∧
    eh_pr_revisado_por_humano pr_sem_revisao = false := by
  refine ⟨?_, by decide, by decide, by decide, by decide⟩
  intro pr
  by_cases hs : minusculas pr.state = "closed" ∨ minusculas pr.state = "merged"
  · by_cases hr : pr.reviews_totalCount < 1
    · have hr2 : ¬(1 ≤ pr.reviews_totalCount) := by omega
      simp [eh_pr_revisado_por_humano, hs, hr, hr2]
    · have hr2 : 1 ≤ pr.reviews_totalCount := by omega
      rcases hf : fechamento pr with _ | f
      · simp [eh_pr_revisado_por_humano, hs, hr, hr2, hf]
      · rcases hc : pr.created_at with _ | c
        · simp [eh_pr_revisado_por_humano, hs, hr, hr2, hf, hc]
        · simp [eh_pr_revisado_por_humano, hs, hr, hr2, hf, hc]
  · simp [eh_pr_revisado_por_humano, hs]

/-! ## C5: error handling of the detail fetcher -/

/-- C5: for a qualifying item, (a) a quota-exhaustion failure at attempt
`t ≤ MAX_TENTATIVAS` triggers one hard cooldown (`tratar_limite_taxa_atingido`)
and re-runs the fetch with attempt `t + 1`; (b) a quota-exhaustion failure
past the retry budget gives up with `none`; (c) any other failure returns
`none` at once; (d) under unbroken quota exhaustion the fetch starting at
attempt 1 returns `none` after exactly `MAX_TENTATIVAS` cooldowns.  The
function is total and returns through `Option`: no exception reaches the
caller. -/
theorem c5_tratamento_erros (nome_repo : String) (pr : PRSnapshot)
    (tentativas : ℕ → ResultadoTentativa) (t : ℕ)
    (hrev : eh_pr_revisado_por_humano pr = true) :
    (tentativas t = .estouraLimite → t ≤ MAX_TENTATIVAS →
      obter_dados_pr_seguro nome_repo pr tentativas t =
        ((obter_dados_pr_seguro nome_repo pr tentativas (t + 1)).1,
          (obter_dados_pr_seguro nome_repo pr tentativas (t + 1)).2 + 1)) ∧
    (tentativas t = .estouraLimite → MAX_TENTATIVAS < t →
      obter_dados_pr_seguro nome_repo pr tentativas t = (none, 0)) ∧
    (tentativas t = .outraFalha →
      obter_dados_pr_seguro nome_repo pr tentativas t = (none, 0)) ∧
    ((∀ s, tentativas s = .estouraLimite) →
      obter_dados_pr_seguro nome_repo pr tentativas 1 = (none, MAX_TENTATIVAS)) := by
  refine ⟨?_, ?_, ?_, ?_⟩
  · intro h hle
    rw [obter_dados_pr_seguro]
    simp [hrev, h, hle]
  · intro h hgt
    have hle : ¬(t ≤ MAX_TENTATIVAS) := by omega
    rw [obter_dados_pr_seguro]
    simp [hrev, h, hle]
  · intro h
    rw [obter_dados_pr_seguro]
    simp [hrev, h]
  · intro hall
    have h3 : obter_dados_pr_seguro nome_repo pr tentativas 3 = (none, 0) := by
      rw [obter_dados_pr_seguro]
      simp [hrev, hall 3, MAX_TENTATIVAS]
    have h2 : obter_dados_pr_seguro nome_repo pr tentativas 2 = (none, 1) := by
      rw [obter_dados_pr_seguro]
      simp [hrev, hall 2, MAX_TENTATIVAS, h3]
    have h1 : obter_dados_pr_seguro nome_repo pr tentativas 1 = (none, 2) := by
      rw [obter_dados_pr_seguro]
      simp [hrev, hall 1, MAX_TENTATIVAS, h2]
    rw [h1]
    rfl

/-- Witness for `c5_tratamento_erros`: with every attempt hitting quota
exhaustion, fetching `pr_merged_2h` from attempt 1 yields `none` after
`MAX_TENTATIVAS` cooldowns. -/
theorem c5_tratamento_erros_witness :
    obter_dados_pr_seguro "R" pr_merged_2h
        (fun _ => ResultadoTentativa.estouraLimite) 1 = (none, MAX_TENTATIVAS) :=
  (c5_tratamento_erros "R" pr_merged_2h (fun _ => ResultadoTentativa.estouraLimite) 1
    (by decide)).2.2.2 (fun _ => rfl)

/-! ## C6: partial records on retried attempts -/

/-- C6: on any attempt number greater than 1 the comment-list and
review-list remote reads are skipped — the record is assembled from empty
collections no matter what a fetch would have returned — so its
`comments`, `review_comments`, `unique_participants`, `review_count`,
`approval_count` and `request_changes_count` fields are all zero, while
every scalar field taken from the item snapshot is still populated. -/
theorem c6_registros_parciais (nome_repo : String) (pr : PRSnapshot)
    (tentativas : ℕ → ResultadoTentativa) (t : ℕ) (cs : List Comentario)
    (rs : List Revisao) (ht : 1 < t) (hc : tentativas t = .completa cs rs)
    (hrev : eh_pr_revisado_por_humano pr = true) :
    obter_dados_pr_seguro nome_repo pr tentativas t =
      (some (montar_dados_pr nome_repo pr [] []), 0) ∧
    (montar_dados_pr nome_repo pr [] []).comments = 0 ∧
    (montar_dados_pr nome_repo pr [] []).review_comments = 0 ∧
    (montar_dados_pr nome_repo pr [] []).unique_participants = 0 ∧
    (montar_dados_pr nome_repo pr [] []).review_count = 0 ∧
    (montar_dados_pr nome_repo pr [] []).approval_count = 0 ∧
    (montar_dados_pr nome_repo pr [] []).request_changes_count = 0 ∧
    (montar_dados_pr nome_repo pr [] []).repo = nome_repo ∧
    (montar_dados_pr nome_repo pr [] []).pr_number = pr.number ∧
    (montar_dados_pr nome_repo pr [] []).state = minusculas pr.state ∧
    (montar_dados_pr nome_repo pr [] []).title_length = pr.title.length ∧
    (montar_dados_pr nome_repo pr [] []).created_at = pr.created_at ∧
    (montar_dados_pr nome_repo pr [] []).closed_at = fechamento pr ∧
    (montar_dados_pr nome_repo pr [] []).is_merged = pr.merged ∧
    (montar_dados_pr nome_repo pr [] []).additions = pr.additions ∧
    (montar_dados_pr nome_repo pr [] []).deletions = pr.deletions ∧
    (montar_dados_pr nome_repo pr [] []).changed_files = pr.changed_files ∧
    (montar_dados_pr nome_repo pr [] []).changes_size = pr.additions + pr.deletions := by
  have ht1 : ¬(t = 1) := by omega
  refine ⟨?_, rfl, rfl, rfl, rfl, rfl, rfl, rfl, rfl, rfl, rfl, rfl, rfl, rfl,
    rfl, rfl, rfl, rfl⟩
  rw [obter_dados_pr_seguro]
  simp [hrev, hc, ht1]

/-- Witness for `c6_registros_parciais` at attempt 2, where the (skipped)
fetch would have returned one comment and one approving review. -/
theorem c6_registros_parciais_witness :
    obter_dados_pr_seguro "R" pr_merged_2h
        (fun _ => ResultadoTentativa.completa [⟨some "u"⟩]
          [⟨some "v", some "APPROVED"⟩]) 2 =
      (some (montar_dados_pr "R" pr_merged_2h [] []), 0) :=
  (c6_registros_parciais "R" pr_merged_2h
    (fun _ => ResultadoTentativa.completa [⟨some "u"⟩] [⟨some "v", some "APPROVED"⟩])
    2 [⟨some "u"⟩] [⟨some "v", some "APPROVED"⟩] (by decide) rfl (by decide)).1

/-! ## C7: the listing retry of `coletar_prs_repositorio` is unbounded -/

/-- C7 (counterexample): with the listing failing with quota exhaustion on
its first three calls and succeeding on the fourth,
`coletar_prs_repositorio` re-enters the listing three times — more than the
single claimed retry — before returning. -/
theorem c7_contraexemplo_uma_repeticao :
    coletar_prs_repositorio
        (fun n => if n < 3 then .estouraLimite else .completa [linha_antiga]) 0 10 =
      some ([linha_antiga], 3) ∧ 1 < 3 :=
  ⟨rfl, by decide⟩

/-- C7 (amended): on quota exhaustion the whole listing is re-entered with
NO retry bound: whenever the model returns, the number of re-entries equals
the number of consecutive leading quota-exhaustion outcomes — whatever that
number is — and under unbroken quota exhaustion the source never returns
(the model yields `none` for every fuel). -/
theorem c7_repeticao_ilimitada (listagens : ℕ → ResultadoListagem) :
    (∀ chamada fuel dados reps,
      coletar_prs_repositorio listagens chamada fuel = some (dados, reps) →
      (∀ i < reps, listagens (chamada + i) = .estouraLimite) ∧
        listagens (chamada + reps) ≠ .estouraLimite) ∧
    ((∀ n, listagens n = .estouraLimite) →
      ∀ chamada fuel, coletar_prs_repositorio listagens chamada fuel = none) := by
  constructor
  · intro chamada fuel
    induction fuel generalizing chamada with
    | zero => intro dados reps h; cases h
    | succ fuel ih =>
      intro dados reps h
      rcases hl : listagens chamada with dados0 | _ | _
      · rw [coletar_prs_repositorio, hl] at h
        have h2 := Option.some.inj h
        have hr : (0 : ℕ) = reps := congrArg Prod.snd h2
        subst hr
        constructor
        · intro i hi; omega
        · rw [Nat.add_zero, hl]; intro hcon; cases hcon
      · rw [coletar_prs_repositorio, hl] at h
        rcases hrec : coletar_prs_repositorio listagens (chamada + 1) fuel with _ | p
        · rw [hrec] at h; cases h
        · rw [hrec] at h
          have h2 := Option.some.inj h
          have hr : p.2 + 1 = reps := congrArg Prod.snd h2
          obtain ⟨ih1, ih2⟩ := ih (chamada + 1) p.1 p.2 (by rw [hrec])
          constructor
          · intro i hi
            cases i with
            | zero => simpa using hl
            | succ j =>
              have he : chamada + (j + 1) = chamada + 1 + j := by omega
              rw [he]
              exact ih1 j (by omega)
          · have he : chamada + reps = chamada + 1 + p.2 := by omega
            rw [he]
            exact ih2
      · rw [coletar_prs_repositorio, hl] at h
        have h2 := Option.some.inj h
        have hr : (0 : ℕ) = reps := congrArg Prod.snd h2
        subst hr
        constructor
        · intro i hi; omega
        · rw [Nat.add_zero, hl]; intro hcon; cases hcon
  · intro hall chamada fuel
    induction fuel generalizing chamada with
    | zero => rfl
    | succ fuel ih =>
      rw [coletar_prs_repositorio, hall chamada, ih (chamada + 1)]
      rfl

/-- Witness for `c7_repeticao_ilimitada`: three consecutive quota failures
then success gives exactly three re-entries; unbroken quota failure never
returns within fuel 5. -/
theorem c7_repeticao_ilimitada_witness :
    ((∀ i < 3, (fun n => if n < 3 then ResultadoListagem.estouraLimite
        else ResultadoListagem.completa [linha_antiga]) (0 + i) =
          ResultadoListagem.estouraLimite) ∧
      (fun n => if n < 3 then ResultadoListagem.estouraLimite
        else ResultadoListagem.completa [linha_antiga]) (0 + 3) ≠
          ResultadoListagem.estouraLimite) ∧
    coletar_prs_repositorio (fun _ => ResultadoListagem.estouraLimite) 0 5 = none :=
  ⟨(c7_repeticao_ilimitada (fun n => if n < 3 then ResultadoListagem.estouraLimite
      else ResultadoListagem.completa [linha_antiga])).1 0 10 [linha_antiga] 3 rfl,
    (c7_repeticao_ilimitada (fun _ => ResultadoListagem.estouraLimite)).2
      (fun _ => rfl) 0 5⟩

/-! ## C8: discoverer postcondition -/

/-- Invariant of the inner discovery loop: every admitted repository has an
id outside the checkpoint set and a PR count of at least `MIN_PRS`, and no
more than `repos_needed` repositories are ever admitted. -/
theorem processar_busca_inv (processados : List String) (needed : ℕ)
    (verif : ℕ → Bool) :
    ∀ (rs : List RepositorioBusca) (idx : ℕ) (st : EstadoBusca),
      (∀ r ∈ st.repositorios, r.full_name ∉ processados ∧
        ∃ n, r.pulls = .contagem n ∧ MIN_PRS ≤ n) →
      st.repositorios.length ≤ needed →
      (∀ r ∈ (processar_busca processados needed verif rs idx st).repositorios,
        r.full_name ∉ processados ∧ ∃ n, r.pulls = .contagem n ∧ MIN_PRS ≤ n) ∧
      (processar_busca processados needed verif rs idx st).repositorios.length ≤
        needed := by
  intro rs
  induction rs with
  | nil => intro idx st hinv hlen; exact ⟨hinv, hlen⟩
  | cons repo rest ih =>
    intro idx st hinv hlen
    obtain ⟨nome, pulls⟩ := repo
    rw [processar_busca]
    by_cases hb : st.repositorios.length ≥ needed
    · rw [if_pos hb]; exact ⟨hinv, hlen⟩
    · rw [if_neg hb]
      by_cases hp : nome ∈ processados
      · rw [if_pos hp]; exact ih (idx + 1) st hinv hlen
      · rw [if_neg hp]
        by_cases hv : (verif idx || st.limite_taxa_atingido) = true
        · rw [if_pos hv]; exact ⟨hinv, hlen⟩
        · rw [if_neg hv]
          rcases pulls with n | _ | _
          · dsimp only
            by_cases hn : n ≥ MIN_PRS
            · rw [if_pos hn]
              apply ih (idx + 1)
              · intro r hr
                rcases List.mem_append.mp hr with hr1 | hr2
                · exact hinv r hr1
                · rw [List.mem_singleton.mp hr2]
                  exact ⟨hp, n, rfl, hn⟩
              · simp only [List.length_append, List.length_singleton]
                omega
            · rw [if_neg hn]; exact ih (idx + 1) st hinv hlen
          · exact ih (idx + 1) ⟨st.repositorios, true⟩ hinv hlen
          · exact ih (idx + 1) st hinv hlen

/-- Invariant of the outer discovery `while` loop. -/
theorem obter_loop_inv (processados : List String) (needed : ℕ)
    (resultados : List RepositorioBusca) (va : ℕ → Bool)
    (buscas : ℕ → ResultadoBusca) (verif : ℕ → ℕ → Bool) :
    ∀ (fuel iter tent : ℕ) (st : EstadoBusca) (res : List RepositorioBusca),
      (∀ r ∈ st.repositorios, r.full_name ∉ processados ∧
        ∃ n, r.pulls = .contagem n ∧ MIN_PRS ≤ n) →
      st.repositorios.length ≤ needed →
      obter_repositorios_top_loop processados needed resultados va buscas verif
        iter tent st fuel = some res →
      (∀ r ∈ res, r.full_name ∉ processados ∧
        ∃ n, r.pulls = .contagem n ∧ MIN_PRS ≤ n) ∧ res.length ≤ needed := by
  intro fuel
  induction fuel with
  | zero => intro iter tent st res _ _ h; cases h
  | succ fuel ih =>
    intro iter tent st res hinv hlen h
    rw [obter_repositorios_top_loop] at h
    by_cases hg : st.repositorios.length < needed ∧ tent < MAX_TENTATIVAS
    · rw [if_pos hg] at h
      by_cases hva : va iter = true
      · rw [if_pos hva] at h
        exact ih (iter + 1) tent st res hinv hlen h
      · rw [if_neg hva] at h
        rcases hbu : buscas iter with _ | _ | _
        · rw [hbu] at h
          have hres := Option.some.inj h
          obtain ⟨h1, h2⟩ := processar_busca_inv processados needed (verif iter)
            resultados 0 st hinv (le_of_lt hg.1)
          rw [← hres]
          exact ⟨h1, h2⟩
        · rw [hbu] at h
          exact ih (iter + 1) (tent + 1) ⟨st.repositorios, true⟩ res hinv hlen h
        · rw [hbu] at h
          exact ih (iter + 1) (tent + 1) st res hinv hlen h
    · rw [if_neg hg] at h
      have hres := Option.some.inj h
      rw [← hres]
      exact ⟨hinv, hlen⟩

/-- C8: whenever discovery returns, every returned candidate has an id that
is not in the loaded checkpoint set and a PR count of at least `MIN_PRS`,
and at most `MAX_REPOSITORIOS - len(processados)` (the computed
`repos_needed` target) candidates are returned. -/
theorem c8_poscondicao_descoberta (processados : List String)
    (resultados : List RepositorioBusca) (va : ℕ → Bool)
    (buscas : ℕ → ResultadoBusca) (verif : ℕ → ℕ → Bool) (fuel : ℕ)
    (res : List RepositorioBusca)
    (h : obter_repositorios_top processados resultados va buscas verif fuel =
      some res) :
    (∀ r ∈ res, r.full_name ∉ processados ∧
      ∃ n, r.pulls = .contagem n ∧ MIN_PRS ≤ n) ∧
    res.length ≤ MAX_REPOSITORIOS - processados.length := by
  refine obter_loop_inv processados (MAX_REPOSITORIOS - processados.length)
    resultados va buscas verif fuel 0 0 ⟨[], false⟩ res ?_ ?_ h
  · intro r hr; cases hr
  · simp

/-- Witness for `c8_poscondicao_descoberta`: with checkpoint `{"a/b"}` and a
three-result stream, discovery admits exactly the unknown repository with
150 ≥ 100 PRs. -/
theorem c8_poscondicao_descoberta_witness :
    (∀ r ∈ [(⟨"c/d", ContagemPRs.contagem 150⟩ : RepositorioBusca)],
      r.full_name ∉ ["a/b"] ∧ ∃ n, r.pulls = .contagem n ∧ MIN_PRS ≤ n) ∧
    ([(⟨"c/d", ContagemPRs.contagem 150⟩ : RepositorioBusca)]).length ≤
      MAX_REPOSITORIOS - (["a/b"] : List String).length :=
  c8_poscondicao_descoberta ["a/b"]
    [⟨"a/b", .contagem 500⟩, ⟨"c/d", .contagem 150⟩, ⟨"e/f", .contagem 3⟩]
    (fun _ => false) (fun _ => .ok) (fun _ _ => false) 1
    [⟨"c/d", .contagem 150⟩] (by rfl)

/-! ## C9: persistence-failure surfacing -/

/-- C9: when the rewrite of the output store hits a disk/write error, the
`except` of lines 266-267 reports the failure to the operator synchronously
(the error message is printed by the very same call) and the method returns
normally — it is the surrounding code's choice whether to abort; nothing is
re-raised, the file system and the in-memory state are left as they were
(no partial write in the atomic-write model). -/
theorem c9_falha_persistencia (fs : SistemaArquivos) (st : EstadoColetor)
    (novos : List PRRecord) :
    (salvar_para_csv_metodo fs st novos .falhaDisco).2.2 = ["Erro ao salvar CSV"] ∧
    (salvar_para_csv_metodo fs st novos .falhaDisco).1 = fs ∧
    (salvar_para_csv_metodo fs st novos .falhaDisco).2.1 = st :=
  ⟨rfl, rfl, rfl⟩

/-! ## C10: frame property of the save method -/

/-- C10: every save rewrites at most the new output file
`ARQUIVO_SAIDA_NOVO`: the old checkpoint file `ARQUIVO_SAIDA_ANTIGO` — the
only file `carregar_repositorios_processados` reads — is untouched, every
path other than the new file is untouched, the in-memory set of processed
candidate ids is unchanged, and the skip set a fresh
`carregar_repositorios_processados` would load is identical before and
after the save.  Hence ids persisted during a run never enter the skip set
consulted by discovery. -/
theorem c10_quadro_salvar (fs : SistemaArquivos) (st : EstadoColetor)
    (novos : List PRRecord) (escrita : ResultadoEscrita) :
    (salvar_para_csv_metodo fs st novos escrita).1 ARQUIVO_SAIDA_ANTIGO =
      fs ARQUIVO_SAIDA_ANTIGO ∧
    (∀ p, p ≠ ARQUIVO_SAIDA_NOVO →
      (salvar_para_csv_metodo fs st novos escrita).1 p = fs p) ∧
    (salvar_para_csv_metodo fs st novos escrita).2.1 = st ∧
    carregar_repositorios_processados (salvar_para_csv_metodo fs st novos escrita).1 =
      carregar_repositorios_processados fs := by
  have hdif : ARQUIVO_SAIDA_ANTIGO ≠ ARQUIVO_SAIDA_NOVO := by decide
  cases escrita with
  | falhaDisco => exact ⟨rfl, fun p _ => rfl, rfl, rfl⟩
  | sucesso =>
    have hfs : ∀ p, p ≠ ARQUIVO_SAIDA_NOVO →
        (salvar_para_csv_metodo fs st novos .sucesso).1 p = fs p := by
      intro p hp
      show (if p = ARQUIVO_SAIDA_NOVO then _ else fs p) = fs p
      rw [if_neg hp]
    refine ⟨hfs _ hdif, hfs, rfl, ?_⟩
    unfold carregar_repositorios_processados
    rw [hfs _ hdif]

/-- Witness for `c10_quadro_salvar`: a successful save over an empty file
system leaves the old checkpoint file absent and the processed-id set
unchanged. -/
theorem c10_quadro_salvar_witness :
    (salvar_para_csv_metodo (fun _ => none) ⟨["x/y"]⟩ [linha_antiga] .sucesso).1
        ARQUIVO_SAIDA_ANTIGO =
      (fun _ => none : SistemaArquivos) ARQUIVO_SAIDA_ANTIGO ∧
    (salvar_para_csv_metodo (fun _ => none) ⟨["x/y"]⟩ [linha_antiga] .sucesso).2.1 =
      (⟨["x/y"]⟩ : EstadoColetor) :=
  ⟨(c10_quadro_salvar (fun _ => none) ⟨["x/y"]⟩ [linha_antiga] .sucesso).2.1
      ARQUIVO_SAIDA_ANTIGO (by decide),
    (c10_quadro_salvar (fun _ => none) ⟨["x/y"]⟩ [linha_antiga] .sucesso).2.2.1⟩

end LabExp3
